import Mathlib

/-!
Verification of the Twilio voice-call script (`src/app.py`).

The script is a linear sequence:
  load_dotenv() → read env vars → Client(account_sid, auth_token) →
  client.calls.create(to=…, from_=…, twiml=…) → print("Call SID:", call.sid).

Shallow embedding:
* the process environment is a function `String → Option String`
  (`os.getenv` returns `None` for a missing variable);
* `load_dotenv` (python-dotenv, called with no arguments, hence its default
  `override=False`) merges a `.env` file into the environment, with an
  already-set process variable taking precedence;
* the Twilio SDK and the remote provider are the external boundary; they are
  modelled as an oracle (`Provider`) whose two operations — constructing the
  authenticated client and submitting the call-creation request — may each
  fail.  The script passes values through to this boundary unchanged, which
  is exactly what the embedding records;
* an uncaught Python exception terminates the process with exit code 1 and
  leaves stdout untouched; success exits 0.

`run` gives the process-level result (exit code, stdout); `runTrace` gives the
ordered list of observable events of one run, used for the temporal and
frame claims.
-/

namespace TwilioApp

/-- The process environment: variable name to optional value, as read by
`os.getenv` (missing variable ↦ `none`). -/
def Env : Type := String → Option String

/-- A `.env` file: an association list of variable/value pairs. -/
def DotenvFile : Type := List (String × String)

/-- Model of python-dotenv's `load_dotenv()` with its default
`override=False`: a variable already set in the process environment keeps its
value; otherwise the value from the `.env` file (if any) is used. -/
def load_dotenv (file : DotenvFile) (env : Env) : Env :=
  fun k =>
    match env k with
    | some v => some v
    | none => List.lookup k file

/-- `os.getenv`, reading the (post-`load_dotenv`) process environment. -/
def os_getenv (env : Env) (k : String) : Option String :=
  env k

/-- The arguments the script hands to `Client(account_sid, auth_token)`.
Either may be `none` when the variable is unset: the script performs no
check. -/
structure ClientConfig where
  account_sid : Option String
  auth_token : Option String

/-- The parameters of the one `client.calls.create(...)` request.  `to` and
`from_` may be `none` when unset; `twiml` is the inline voice-response
document. -/
structure CallRequest where
  «to» : Option String
  from_ : Option String
  twiml : String

/-- The call record the provider returns on success; the script only reads
its `sid`. -/
structure CallRecord where
  sid : String

/-- The external boundary: the Twilio SDK plus the remote provider, modelled
as two possibly-failing operations.  `mkClient` is `Client(...)` (the SDK may
raise, e.g. on missing credentials); `create` is `client.calls.create(...)`
(network, authentication or provider rejection may raise). -/
structure Provider where
  mkClient : ClientConfig → Except String Unit
  create : ClientConfig → CallRequest → Except String CallRecord

/-- The client-constructor arguments the script builds: the raw values of
`account_sid` and `auth_token`, passed through with no validation and no
default. -/
def buildConfig (m : Env) : ClientConfig :=
  { account_sid := os_getenv m "account_sid"
    auth_token := os_getenv m "auth_token" }

/-- The call-creation request the script builds: `to` and `from_` read from
the environment with no validation and no default, and the fixed inline
TwiML payload. -/
def buildRequest (m : Env) : CallRequest :=
  { «to» := os_getenv m "to"
    from_ := os_getenv m "from_"
    twiml := "<Response><Say>HOW are you</Say></Response>" }

/-- The observable process-level outcome of one run. -/
structure RunResult where
  exitCode : Nat
  stdout : String

/-- One run of `src/app.py`: load `.env`, read the environment, construct the
client, submit the request, print `Call SID: <sid>`.  An exception anywhere
is uncaught: exit code 1, stdout unchanged (empty). -/
def run (p : Provider) (file : DotenvFile) (env : Env) : RunResult :=
  match p.mkClient (buildConfig (load_dotenv file env)) with
  | Except.error _ => { exitCode := 1, stdout := "" }
  | Except.ok _ =>
    match p.create (buildConfig (load_dotenv file env))
        (buildRequest (load_dotenv file env)) with
    | Except.error _ => { exitCode := 1, stdout := "" }
    | Except.ok call =>
      { exitCode := 0, stdout := "Call SID: " ++ call.sid ++ "\n" }

/-- Observable events of one run, in program order. -/
inductive Event : Type where
  | loadEnv : Event
  | buildClient : ClientConfig → Event
  | submit : CallRequest → Event
  | submitReturned : Except String CallRecord → Event
  | printLine : String → Event

/-- The ordered event trace of one run of the script: environment loading,
client construction, then (unless construction raised) the one request, its
return, and (on success only) the one print. -/
def runTrace (p : Provider) (file : DotenvFile) (env : Env) : List Event :=
  Event.loadEnv ::
  Event.buildClient (buildConfig (load_dotenv file env)) ::
  match p.mkClient (buildConfig (load_dotenv file env)) with
  | Except.error _ => []
  | Except.ok _ =>
    Event.submit (buildRequest (load_dotenv file env)) ::
    match p.create (buildConfig (load_dotenv file env))
        (buildRequest (load_dotenv file env)) with
    | Except.error e => [Event.submitReturned (Except.error e)]
    | Except.ok call =>
      [Event.submitReturned (Except.ok call),
       Event.printLine ("Call SID: " ++ call.sid ++ "\n")]

/-- Recogniser for call-creation (submit) events. -/
def isSubmitE : Event → Bool
  | Event.loadEnv => false
  | Event.buildClient _ => false
  | Event.submit _ => true
  | Event.submitReturned _ => false
  | Event.printLine _ => false

/-- Recogniser for print events. -/
def isPrintE : Event → Bool
  | Event.loadEnv => false
  | Event.buildClient _ => false
  | Event.submit _ => false
  | Event.submitReturned _ => false
  | Event.printLine _ => true

/-- An optional string value that is missing or empty — the configuration
states the spec's invariant rules out. -/
def blank : Option String → Bool
  | none => true
  | some s => s.isEmpty

/- Concrete test fixtures (used by the witnesses). -/

/-- A fully-populated process environment. -/
def envGood : Env := fun k =>
  if k = "account_sid" then some "AC1" else
  if k = "auth_token" then some "tok" else
  if k = "to" then some "+15550001111" else
  if k = "from_" then some "+15550002222" else none

/-- An entirely empty process environment. -/
def envEmpty : Env := fun _ => none

/-- A provider on which both operations always succeed. -/
def okProvider : Provider :=
  { mkClient := fun _ => Except.ok ()
    create := fun _ _ => Except.ok { sid := "CA123" } }

/-- A provider whose call-creation request always fails (e.g. invalid phone
number), while client construction succeeds. -/
def errProvider : Provider :=
  { mkClient := fun _ => Except.ok ()
    create := fun _ _ => Except.error "21211 invalid phone number" }

/-- A provider behaving like the real SDK/API on blank configuration: client
construction fails on missing/empty credentials, call creation fails on a
missing/empty destination or origin number. -/
def strictProvider : Provider :=
  { mkClient := fun cfg =>
      match blank cfg.account_sid || blank cfg.auth_token with
      | true => Except.error "Credentials are required to create a TwilioClient"
      | false => Except.ok ()
    create := fun _ req =>
      match blank req.«to» || blank req.from_ with
      | true => Except.error "21211 missing or invalid number"
      | false => Except.ok { sid := "CA999" } }

/-- A `.env` file that also defines `to`. -/
def fileTo : DotenvFile := [("to", "+15550009999")]

/-- The successful trace on the good fixtures, computed. -/
lemma traceGood_eq :
    runTrace okProvider [] envGood =
      [Event.loadEnv,
       Event.buildClient (buildConfig (load_dotenv [] envGood)),
       Event.submit (buildRequest (load_dotenv [] envGood)),
       Event.submitReturned (Except.ok { sid := "CA123" }),
       Event.printLine ("Call SID: " ++ "CA123" ++ "\n")] := rfl

/-- C1: for every invocation — any provider, any `.env` file, any process
environment — every call-creation request the run submits carries as its
`twiml` parameter exactly the string
`<Response><Say>HOW are you</Say></Response>`. -/
theorem claim_C1 (p : Provider) (file : DotenvFile) (env : Env)
    (r : CallRequest) (h : Event.submit r ∈ runTrace p file env) :
    r.twiml = "<Response><Say>HOW are you</Say></Response>" := by
  cases hm : p.mkClient (buildConfig (load_dotenv file env)) with
  | error e => simp [runTrace, hm] at h
  | ok u =>
    cases hc : p.create (buildConfig (load_dotenv file env))
        (buildRequest (load_dotenv file env)) with
    | error e =>
      simp [runTrace, hm, hc] at h
      subst h
      rfl
    | ok call =>
      simp [runTrace, hm, hc] at h
      subst h
      rfl

/-- Witness for C1: the good fixtures submit a request, and its payload is
the fixed TwiML string. -/
theorem claim_C1_witness :
    (buildRequest (load_dotenv [] envGood)).twiml =
      "<Response><Say>HOW are you</Say></Response>" :=
  claim_C1 okProvider [] envGood (buildRequest (load_dotenv [] envGood))
    (by rw [traceGood_eq]; simp)

/-- C2: when client construction and the call-creation request both succeed,
the run prints exactly one line, `Call SID: <sid>` for the returned record's
`sid`, and exits with status 0. -/
theorem claim_C2 (p : Provider) (file : DotenvFile) (env : Env)
    (call : CallRecord)
    (hmk : p.mkClient (buildConfig (load_dotenv file env)) = Except.ok ())
    (hcr : p.create (buildConfig (load_dotenv file env))
        (buildRequest (load_dotenv file env)) = Except.ok call) :
    run p file env =
      { exitCode := 0, stdout := "Call SID: " ++ call.sid ++ "\n" } ∧
    (runTrace p file env).countP isPrintE = 1 := by
  constructor
  · simp [run, hmk, hcr]
  · simp [runTrace, hmk, hcr, isPrintE]

/-- Witness for C2 at the good fixtures: the run prints `Call SID: CA123`
once and exits 0. -/
theorem claim_C2_witness :
    run okProvider [] envGood =
      { exitCode := 0, stdout := "Call SID: " ++ "CA123" ++ "\n" } ∧
    (runTrace okProvider [] envGood).countP isPrintE = 1 :=
  claim_C2 okProvider [] envGood { sid := "CA123" } rfl rfl

/-- C3: the submitted request's destination is exactly the environment value
of `to` and its origin exactly that of `from_`, and the client is constructed
with exactly the environment values of `account_sid` and `auth_token` — each
an unvalidated, defaultless pass-through (`none` when unset). -/
theorem claim_C3 (p : Provider) (file : DotenvFile) (env : Env)
    (cfg : ClientConfig) (r : CallRequest)
    (hc : Event.buildClient cfg ∈ runTrace p file env)
    (hr : Event.submit r ∈ runTrace p file env) :
    r.«to» = load_dotenv file env "to" ∧
    r.from_ = load_dotenv file env "from_" ∧
    cfg.account_sid = load_dotenv file env "account_sid" ∧
    cfg.auth_token = load_dotenv file env "auth_token" := by
  cases hm : p.mkClient (buildConfig (load_dotenv file env)) with
  | error e => simp [runTrace, hm] at hr
  | ok u =>
    cases hc2 : p.create (buildConfig (load_dotenv file env))
        (buildRequest (load_dotenv file env)) with
    | error e =>
      simp [runTrace, hm, hc2] at hc hr
      subst hc
      subst hr
      exact ⟨rfl, rfl, rfl, rfl⟩
    | ok call =>
      simp [runTrace, hm, hc2] at hc hr
      subst hc
      subst hr
      exact ⟨rfl, rfl, rfl, rfl⟩

/-- Witness for C3 at the good fixtures. -/
theorem claim_C3_witness :
    (buildRequest (load_dotenv [] envGood)).«to» =
      load_dotenv [] envGood "to" ∧
    (buildRequest (load_dotenv [] envGood)).from_ =
      load_dotenv [] envGood "from_" ∧
    (buildConfig (load_dotenv [] envGood)).account_sid =
      load_dotenv [] envGood "account_sid" ∧
    (buildConfig (load_dotenv [] envGood)).auth_token =
      load_dotenv [] envGood "auth_token" :=
  claim_C3 okProvider [] envGood
    (buildConfig (load_dotenv [] envGood))
    (buildRequest (load_dotenv [] envGood))
    (by rw [traceGood_eq]; simp)
    (by rw [traceGood_eq]; simp)

/-- C4: if the call-creation request raises an error, the run terminates
with the non-zero status 1, stdout stays empty, and no print event occurs
(nothing is caught). -/
theorem claim_C4 (p : Provider) (file : DotenvFile) (env : Env) (e : String)
    (hcr : p.create (buildConfig (load_dotenv file env))
        (buildRequest (load_dotenv file env)) = Except.error e) :
    (run p file env).exitCode = 1 ∧ (run p file env).stdout = "" ∧
    (runTrace p file env).countP isPrintE = 0 := by
  cases hm : p.mkClient (buildConfig (load_dotenv file env)) with
  | error e2 => exact ⟨by simp [run, hm], by simp [run, hm],
      by simp [runTrace, hm, isPrintE]⟩
  | ok u => exact ⟨by simp [run, hm, hcr], by simp [run, hm, hcr],
      by simp [runTrace, hm, hcr, isPrintE]⟩

/-- Witness for C4: with a provider that rejects the request, the good
environment still yields exit 1, empty stdout and no print. -/
theorem claim_C4_witness :
    (run errProvider [] envGood).exitCode = 1 ∧
    (run errProvider [] envGood).stdout = "" ∧
    (runTrace errProvider [] envGood).countP isPrintE = 0 :=
  claim_C4 errProvider [] envGood "21211 invalid phone number" rfl

/-- C5: whenever any of the four variables is missing or empty in the
environment the script reads (the process environment after the `.env`
merge), and the external boundary behaves as the spec states — the SDK
rejects blank credentials, the provider rejects a blank destination or
origin — the run fails (exit 1) and prints no `Call SID:` line (stdout stays
empty, no print event). -/
theorem claim_C5 (p : Provider) (file : DotenvFile) (env : Env)
    (hmk : ∀ cfg : ClientConfig,
      (blank cfg.account_sid || blank cfg.auth_token) = true →
      ∃ e, p.mkClient cfg = Except.error e)
    (hcr : ∀ (cfg : ClientConfig) (req : CallRequest),
      (blank req.«to» || blank req.from_) = true →
      ∃ e, p.create cfg req = Except.error e)
    (hvar : ((blank (load_dotenv file env "account_sid") ||
              blank (load_dotenv file env "auth_token")) ||
             (blank (load_dotenv file env "to") ||
              blank (load_dotenv file env "from_"))) = true) :
    (run p file env).exitCode = 1 ∧ (run p file env).stdout = "" ∧
    (runTrace p file env).countP isPrintE = 0 := by
  cases hm : p.mkClient (buildConfig (load_dotenv file env)) with
  | error e => exact ⟨by simp [run, hm], by simp [run, hm],
      by simp [runTrace, hm, isPrintE]⟩
  | ok u =>
    simp only [Bool.or_eq_true] at hvar
    have hreq : ∃ e, p.create (buildConfig (load_dotenv file env))
        (buildRequest (load_dotenv file env)) = Except.error e := by
      rcases hvar with (hs | ht) | (hto | hfr)
      · obtain ⟨e, he⟩ := hmk (buildConfig (load_dotenv file env))
          (by simp [buildConfig, os_getenv, hs])
        rw [hm] at he
        simp at he
      · obtain ⟨e, he⟩ := hmk (buildConfig (load_dotenv file env))
          (by simp [buildConfig, os_getenv, ht])
        rw [hm] at he
        simp at he
      · exact hcr (buildConfig (load_dotenv file env))
          (buildRequest (load_dotenv file env))
          (by simp [buildRequest, os_getenv, hto])
      · exact hcr (buildConfig (load_dotenv file env))
          (buildRequest (load_dotenv file env))
          (by simp [buildRequest, os_getenv, hfr])
    obtain ⟨e, he⟩ := hreq
    exact ⟨by simp [run, hm, he], by simp [run, hm, he],
      by simp [runTrace, hm, he, isPrintE]⟩

/-- Witness for C5: with the realistic strict provider and an entirely empty
environment, the run exits 1 with empty stdout and no print event. -/
theorem claim_C5_witness :
    (run strictProvider [] envEmpty).exitCode = 1 ∧
    (run strictProvider [] envEmpty).stdout = "" ∧
    (runTrace strictProvider [] envEmpty).countP isPrintE = 0 :=
  claim_C5 strictProvider [] envEmpty
    (fun cfg h => ⟨"Credentials are required to create a TwilioClient",
      by simp [strictProvider, h]⟩)
    (fun cfg req h => ⟨"21211 missing or invalid number",
      by simp [strictProvider, h]⟩)
    (by rfl)

/-- C6: whenever a run prints a line, its full trace is exactly — and in
this order — environment loading, client construction, the one request
submission, the request's successful return, and the one print; in
particular nothing is printed before the call-creation request has
returned. -/
theorem claim_C6 (p : Provider) (file : DotenvFile) (env : Env) (s : String)
    (h : Event.printLine s ∈ runTrace p file env) :
    ∃ call : CallRecord,
      p.create (buildConfig (load_dotenv file env))
          (buildRequest (load_dotenv file env)) = Except.ok call ∧
      s = "Call SID: " ++ call.sid ++ "\n" ∧
      runTrace p file env =
        [Event.loadEnv,
         Event.buildClient (buildConfig (load_dotenv file env)),
         Event.submit (buildRequest (load_dotenv file env)),
         Event.submitReturned (Except.ok call),
         Event.printLine s] := by
  cases hm : p.mkClient (buildConfig (load_dotenv file env)) with
  | error e => simp [runTrace, hm] at h
  | ok u =>
    cases hc : p.create (buildConfig (load_dotenv file env))
        (buildRequest (load_dotenv file env)) with
    | error e => simp [runTrace, hm, hc] at h
    | ok call =>
      simp [runTrace, hm, hc] at h
      exact ⟨call, rfl, h, by simp [runTrace, hm, hc, h]⟩

/-- Witness for C6 at the good fixtures: the printed line forces the full
five-event trace in program order. -/
theorem claim_C6_witness :
    ∃ call : CallRecord,
      okProvider.create (buildConfig (load_dotenv [] envGood))
          (buildRequest (load_dotenv [] envGood)) = Except.ok call ∧
      ("Call SID: " ++ "CA123" ++ "\n") = "Call SID: " ++ call.sid ++ "\n" ∧
      runTrace okProvider [] envGood =
        [Event.loadEnv,
         Event.buildClient (buildConfig (load_dotenv [] envGood)),
         Event.submit (buildRequest (load_dotenv [] envGood)),
         Event.submitReturned (Except.ok call),
         Event.printLine ("Call SID: " ++ "CA123" ++ "\n")] :=
  claim_C6 okProvider [] envGood ("Call SID: " ++ "CA123" ++ "\n")
    (by rw [traceGood_eq]; simp)

/-- C7: a successful run submits exactly one call-creation request — whose
parameters are exactly the triple built from the environment, with no
idempotency key or any other field — and prints exactly one line; two such
runs back to back submit two requests (no deduplication). -/
theorem claim_C7 (p : Provider) (file : DotenvFile) (env : Env)
    (call : CallRecord)
    (hmk : p.mkClient (buildConfig (load_dotenv file env)) = Except.ok ())
    (hcr : p.create (buildConfig (load_dotenv file env))
        (buildRequest (load_dotenv file env)) = Except.ok call) :
    (runTrace p file env).filter isSubmitE =
      [Event.submit (buildRequest (load_dotenv file env))] ∧
    (runTrace p file env).countP isPrintE = 1 ∧
    (runTrace p file env ++ runTrace p file env).countP isSubmitE = 2 := by
  refine ⟨?_, ?_, ?_⟩ <;>
    simp [runTrace, hmk, hcr, isSubmitE, isPrintE, List.countP_append]

/-- Witness for C7 at the good fixtures. -/
theorem claim_C7_witness :
    (runTrace okProvider [] envGood).filter isSubmitE =
      [Event.submit (buildRequest (load_dotenv [] envGood))] ∧
    (runTrace okProvider [] envGood).countP isPrintE = 1 ∧
    (runTrace okProvider [] envGood ++ runTrace okProvider [] envGood).countP
      isSubmitE = 2 :=
  claim_C7 okProvider [] envGood { sid := "CA123" } rfl rfl

/-- C8: the run is deterministic — with the same environment and `.env`
file, and external boundaries that answer the run's two operations
identically, the whole observable outcome (exit code, stdout, trace, hence
the submitted request parameters) is identical. -/
theorem claim_C8 (file : DotenvFile) (env : Env) (p₁ p₂ : Provider)
    (h₁ : p₁.mkClient (buildConfig (load_dotenv file env)) =
          p₂.mkClient (buildConfig (load_dotenv file env)))
    (h₂ : p₁.create (buildConfig (load_dotenv file env))
            (buildRequest (load_dotenv file env)) =
          p₂.create (buildConfig (load_dotenv file env))
            (buildRequest (load_dotenv file env))) :
    run p₁ file env = run p₂ file env ∧
    runTrace p₁ file env = runTrace p₂ file env := by
  constructor
  · simp only [run, h₁, h₂]
  · simp only [runTrace, h₁, h₂]

/-- Witness for C8: two runs over the same boundary agree. -/
theorem claim_C8_witness :
    run okProvider [] envGood = run okProvider [] envGood ∧
    runTrace okProvider [] envGood = runTrace okProvider [] envGood :=
  claim_C8 [] envGood okProvider okProvider rfl rfl

/-- C9: the script itself performs no configuration check: the environment
lookups (possibly `none`) are passed through unchanged to the client
constructor and the request, and with a boundary that never raises the run
exits 0 for EVERY environment — including one with all four variables unset
— so every missing/empty-configuration failure originates in the library or
provider, never in a branch of the script. -/
theorem claim_C9 (p : Provider) (file : DotenvFile) (env : Env)
    (hmk : ∀ cfg : ClientConfig, p.mkClient cfg = Except.ok ())
    (hcr : ∀ (cfg : ClientConfig) (req : CallRequest),
      ∃ call, p.create cfg req = Except.ok call) :
    (buildConfig (load_dotenv file env)).account_sid =
      load_dotenv file env "account_sid" ∧
    (buildConfig (load_dotenv file env)).auth_token =
      load_dotenv file env "auth_token" ∧
    (buildRequest (load_dotenv file env)).«to» = load_dotenv file env "to" ∧
    (buildRequest (load_dotenv file env)).from_ =
      load_dotenv file env "from_" ∧
    (run p file env).exitCode = 0 := by
  obtain ⟨call, hc⟩ := hcr (buildConfig (load_dotenv file env))
    (buildRequest (load_dotenv file env))
  exact ⟨rfl, rfl, rfl, rfl, by simp [run, hmk, hc]⟩

/-- Witness for C9: with an entirely empty environment (all lookups `none`)
and a never-raising boundary, the run still exits 0 — the script has no
failing branch of its own. -/
theorem claim_C9_witness :
    (buildConfig (load_dotenv [] envEmpty)).account_sid =
      load_dotenv [] envEmpty "account_sid" ∧
    (buildConfig (load_dotenv [] envEmpty)).auth_token =
      load_dotenv [] envEmpty "auth_token" ∧
    (buildRequest (load_dotenv [] envEmpty)).«to» =
      load_dotenv [] envEmpty "to" ∧
    (buildRequest (load_dotenv [] envEmpty)).from_ =
      load_dotenv [] envEmpty "from_" ∧
    (run okProvider [] envEmpty).exitCode = 0 :=
  claim_C9 okProvider [] envEmpty (fun _ => rfl)
    (fun _ _ => ⟨{ sid := "CA123" }, rfl⟩)

/-- C10: configuration comes from two places: when a variable is set in the
process environment, `load_dotenv` keeps that value even if the `.env` file
also defines it (default non-overriding behaviour); when it is absent from
the process environment, the `.env` file's value is used; and the merged
environment is what the request is built from. -/
theorem claim_C10 (file : DotenvFile) (env : Env) (k : String) (v w : String)
    (hset : env k = some v) (hfile : List.lookup k file = some w) :
    load_dotenv file env k = some v ∧
    load_dotenv file (fun j => if j = k then none else env j) k = some w ∧
    (buildRequest (load_dotenv file env)).«to» =
      load_dotenv file env "to" := by
  refine ⟨?_, ?_, rfl⟩
  · simp [load_dotenv, hset]
  · simp [load_dotenv, hfile]

/-- Witness for C10: with `to` set both in the process environment and in
the `.env` file, the process value wins; removing it from the process
environment surfaces the `.env` value. -/
theorem claim_C10_witness :
    load_dotenv fileTo envGood "to" = some "+15550001111" ∧
    load_dotenv fileTo (fun j => if j = "to" then none else envGood j) "to" =
      some "+15550009999" ∧
    (buildRequest (load_dotenv fileTo envGood)).«to» =
      load_dotenv fileTo envGood "to" :=
  claim_C10 fileTo envGood "to" "+15550001111" "+15550009999" rfl rfl

end TwilioApp
